import Mathlib

/-!
Shallow embedding of `scripts/check_image_404s.py` (ImageURLChecker).

The script bulk-checks image URLs: `check_one` probes one URL
(HEAD first, conditional GET fallback, retry with linear backoff),
`main` fans probes out over a thread pool, maps results back by index,
classifies each outcome with `is_broken`, and writes the broken rows.

Network I/O is modelled by an oracle (`Net`) giving the result of each
HEAD/GET call per attempt; every probe records a trace of `Event`s
(calls and backoff sleeps) so that claims about which requests are
issued, in which order, and with which sleeps, are statable.
-/

set_option autoImplicit false

universe u

namespace ImageURLChecker

/-- Result of one `requests.head`/`requests.get` call: either a response
with a status code, or a raised `requests.RequestException` whose type
name is recorded. -/
inductive NetResult where
  | ok (status : Int)
  | exn (name : String)
  deriving DecidableEq, Repr

/-- Network oracle: the outcome of the HEAD (resp. GET) call for a given
URL on a given attempt number. -/
structure Net where
  head : String → Nat → NetResult
  get : String → Nat → NetResult

/-- A cell value handed to `check_one`: a Python string, or any
non-string value (e.g. a pandas NaN float), for which
`isinstance(url, str)` is false. -/
inductive Cell where
  | str (s : String)
  | nonStr
  deriving DecidableEq, Repr

/-- Spec-level outcome of a probe: `StatusCode(int)`, `EmptySentinel`
(the script returns the string "empty"), or `ErrorSentinel(kind)` (the
script returns "error: " followed by the exception type name). -/
inductive Outcome where
  | StatusCode (s : Int)
  | EmptySentinel
  | ErrorSentinel (kind : String)
  deriving DecidableEq, Repr

/-- A Python value stored in the status map / IMAGE_STATUS column:
an int, a string, or None. -/
inductive StatusVal where
  | int (s : Int)
  | str (s : String)
  | pyNone
  deriving DecidableEq, Repr

/-- Observable effects of a probe: a HEAD request, a GET request
(each with the URL, timeout and attempt number used), or the
`time.sleep(0.5 * (attempt + 1))` backoff performed after the attempt
with the recorded number failed; its duration in seconds is
`backoffSeconds attempt`. -/
inductive Event where
  | headCall (url : String) (timeout : Int) (attempt : Nat)
  | getCall (url : String) (timeout : Int) (attempt : Nat)
  | sleep (attempt : Nat)
  deriving DecidableEq, Repr

/-- The argument of the `time.sleep` call after a failed attempt:
`0.5 * (attempt + 1)` seconds. -/
def backoffSeconds (attempt : Nat) : ℚ :=
  (1 / 2 : ℚ) * (attempt + 1)

/-- The URL, if any, an event sends a request to. -/
def eventUrl : Event → Option String
  | .headCall u _ _ => some u
  | .getCall u _ _ => some u
  | .sleep _ => none

/-- Python `str.isspace` characters stripped by `str.strip()`:
space, tab, newline, carriage return, vertical tab, form feed. -/
def pyIsSpace (c : Char) : Bool :=
  c.toNat = 32 || c.toNat = 9 || c.toNat = 10 || c.toNat = 13 ||
    c.toNat = 11 || c.toNat = 12

/-- Python `url.strip()`: remove leading and trailing whitespace. -/
def pyStrip (s : String) : String :=
  String.mk (((s.data.dropWhile pyIsSpace).reverse.dropWhile pyIsSpace).reverse)

def DEFAULT_TIMEOUT : Int := 10

def MAX_WORKERS : Nat := 24

def RETRIES : Nat := 2

/-- Result of the `try:` body of one loop iteration of `check_one`:
either a returned status code, or a `requests.RequestException`
caught by the `except` clause. -/
inductive AttemptOut where
  | ret (s : Int)
  | raised (e : String)
  deriving DecidableEq, Repr

/-- One iteration of the retry loop of `check_one` (the `try:` body):
HEAD first; if the HEAD status is 405 or (>= 400 and != 404), a GET is
issued and its status is used instead. An exception from either call is
reported as `raised`. Also yields the trace of calls made. -/
def attemptOnce (net : Net) (url : String) (timeout : Int) (attempt : Nat) :
    AttemptOut × List Event :=
  match net.head url attempt with
  | .exn e => (.raised e, [.headCall url timeout attempt])
  | .ok s =>
    if s = 405 ∨ (400 ≤ s ∧ s ≠ 404) then
      match net.get url attempt with
      | .ok s2 => (.ret s2, [.headCall url timeout attempt, .getCall url timeout attempt])
      | .exn e => (.raised e, [.headCall url timeout attempt, .getCall url timeout attempt])
    else (.ret s, [.headCall url timeout attempt])

/-- The retry loop `for attempt in range(RETRIES + 1)` of `check_one`,
over the list of remaining attempt numbers. A successful attempt returns
its status immediately; an exception sleeps `0.5 * (attempt + 1)` seconds
and retries while `attempt < RETRIES`, else returns the error sentinel.
Falling off the end of the loop is Python's implicit `return None`,
modelled as `none`. -/
def runAttempts (net : Net) (url : String) (timeout : Int) :
    List Nat → Option Outcome × List Event
  | [] => (none, [])
  | attempt :: rest =>
    match attemptOnce net url timeout attempt with
    | (.ret s, evs) => (some (.StatusCode s), evs)
    | (.raised e, evs) =>
      if attempt < RETRIES then
        let r := runAttempts net url timeout rest
        (r.1, evs ++ Event.sleep attempt :: r.2)
      else (some (.ErrorSentinel e), evs)

/-- `check_one(url, timeout)`: blank or non-string input short-circuits
to the empty sentinel with no network call; otherwise the URL is
trimmed and the retry loop runs over attempts `0, 1, ..., RETRIES`. -/
def check_one (url : Cell) (timeout : Int) (net : Net) :
    Option Outcome × List Event :=
  match url with
  | .nonStr => (some .EmptySentinel, [])
  | .str s =>
    if pyStrip s = "" then (some .EmptySentinel, [])
    else runAttempts net (pyStrip s) timeout (List.range (RETRIES + 1))

/-- The Python value `check_one` returns for an outcome: the status int,
the string "empty", or "error: " followed by the exception type name. -/
def statusLabel : Outcome → StatusVal
  | .StatusCode s => .int s
  | .EmptySentinel => .str "empty"
  | .ErrorSentinel k => .str ("error: " ++ k)

/-- The Python value of a possibly-missing outcome (`None` when the
retry loop falls off the end, which never happens). -/
def pyResult : Option Outcome → StatusVal
  | some o => statusLabel o
  | none => .pyNone

/-- `is_broken(s)` from `main`: an int is broken iff `>= 400`; any
non-int value (error/empty strings, None) counts as broken. -/
def is_broken : StatusVal → Bool
  | .int s => 400 ≤ s
  | _ => true

/-- `status = future.result()` guarded by `except Exception`: a task
fault of kind `k` is recorded as the string "error: " ++ k. -/
def taskStatus (exec : Nat → Except String StatusVal) (i : Nat) : StatusVal :=
  match exec i with
  | .ok s => s
  | .error k => .str ("error: " ++ k)

/-- The `as_completed` collection loop of `main`: futures complete in
some order `order` of their indices; each yields `(i, status)` appended
to `results`. -/
def dispatch (exec : Nat → Except String StatusVal) (order : List Nat) :
    List (Nat × StatusVal) :=
  order.map (fun i => (i, taskStatus exec i))

/-- `status_map = {i: s for i, s in results}` followed by
`status_map.get(i, "error: missing")`: the last binding of a key wins;
a missing key yields the "error: missing" string. -/
def mapGet (results : List (Nat × StatusVal)) (i : Nat) : StatusVal :=
  match results.reverse.find? (fun p => p.1 == i) with
  | some p => p.2
  | none => .str "error: missing"

/-- Attaching `IMAGE_STATUS` to every row and keeping the rows where
`is_broken` holds (`broken_df`), in original row order. -/
def collate {α : Type u} (rows : List α) (statusOf : Nat → StatusVal) :
    List (α × StatusVal) :=
  (rows.enum.map (fun p => (p.2, statusOf p.1))).filter (fun p => is_broken p.2)

/-- Python single-quote repr of a string (no escaping needed for the
plain column names involved). -/
def pyQuote (s : String) : String :=
  String.singleton (Char.ofNat 39) ++ s ++ String.singleton (Char.ofNat 39)

/-- Python repr of a list of strings, as produced by
`f"... {list(df.columns)}"`. -/
def pyListRepr (l : List String) : String :=
  "[" ++ String.intercalate ", " (l.map pyQuote) ++ "]"

/-- The `SystemExit` message raised when the configured column is
absent: `f"Column '{args.column}' not found. Columns: {list(df.columns)}"`. -/
def columnMissingMsg (column : String) (cols : List String) : String :=
  "Column " ++ pyQuote column ++ " not found. Columns: " ++ pyListRepr cols

/-- The data frame read by `pd.read_csv`: its column names, its rows
(opaque full-row content, in input order), and the cell values of each
column. -/
structure Frame where
  columns : List String
  rows : List String
  colData : String → List Cell

/-- Observable result of a run of `main`: the `SystemExit` message if
the run aborted, the network events issued, the rows written to the
output file (`none` when no file is written), and the stdout lines. -/
structure RunResult where
  exit : Option String
  netCalls : List Event
  output : Option (List (String × StatusVal))
  console : List String
  deriving DecidableEq

/-- The work a submitted future performs for index `i`: run `check_one`
on the i-th cell of the configured column, unless the task raises an
unexpected fault of kind `k` (modelled by the `faults` oracle), which
`future.result()` re-raises. -/
def execOf (urls : List Cell) (timeout : Int) (nets : Nat → Net)
    (faults : Nat → Option String) : Nat → Except String StatusVal :=
  fun i =>
    match faults i with
    | some k => .error k
    | none => .ok (pyResult (check_one (urls.getD i .nonStr) timeout (nets i)).1)

/-- `main` after argument parsing and `pd.read_csv`: abort with
`SystemExit` when the configured column is missing (no network call, no
output file); otherwise dispatch one probe per row over the pool
(futures completing in order `order`), build the status map, append
`IMAGE_STATUS`, filter the broken rows, write them, and print the
summary lines. -/
def mainModel (df : Frame) (column outPath : String) (timeout : Int)
    (nets : Nat → Net) (order : List Nat) (faults : Nat → Option String) :
    RunResult :=
  if column ∈ df.columns then
    let urls := df.colData column
    let results := dispatch (execOf urls timeout nets faults) order
    let labeled := collate df.rows (fun i => mapGet results i)
    { exit := none
      netCalls :=
        ((List.range urls.length).map
          (fun i => (check_one (urls.getD i .nonStr) timeout (nets i)).2)).flatten
      output := some labeled
      console :=
        ["Checked " ++ toString df.rows.length ++ " rows.",
         "Broken rows: " ++ toString labeled.length,
         "Wrote: " ++ outPath] }
  else
    { exit := some (columnMissingMsg column df.columns)
      netCalls := []
      output := none
      console := [] }

/-- A server whose HEAD responses are plain 404s (no fallback GET is
triggered; its GET would answer 200). -/
def head404Net : Net :=
  { head := fun _ _ => .ok 404, get := fun _ _ => .ok 200 }

/-- A server answering 405 to HEAD and 404 to GET. -/
def head405get404Net : Net :=
  { head := fun _ _ => .ok 405, get := fun _ _ => .ok 404 }

/-- A server on which every call raises `ConnectTimeout`. -/
def alwaysRaiseNet : Net :=
  { head := fun _ _ => .exn "ConnectTimeout", get := fun _ _ => .exn "ConnectTimeout" }

/-- The end-to-end scenario input: three rows whose `url` column holds
a reachable URL, a missing one, and a blank cell. -/
def exampleFrame : Frame :=
  { columns := ["url"]
    rows := ["r0", "r1", "r2"]
    colData := fun _ =>
      [.str "http://a.test/ok.png", .str "http://a.test/missing.png", .str ""] }

/-- Mocked responses for the scenario: row 0 gets 200, the others 404. -/
def exampleNets : Nat → Net := fun i =>
  if i = 0 then { head := fun _ _ => .ok 200, get := fun _ _ => .ok 200 }
  else head404Net

/-- A mocked task set of three futures where task 1 raises an
unexpected `ValueError` and the others return status 200. -/
def exampleExec : Nat → Except String StatusVal := fun i =>
  if i = 1 then .error "ValueError" else .ok (.int 200)

/-! ## Helper lemmas -/

theorem runAttempts_fst_isSome (net : Net) (u : String) (t : Int) :
    ∀ l : List Nat, RETRIES ∈ l → ((runAttempts net u t l).1).isSome = true := by
  intro l
  induction l with
  | nil => intro h; exact absurd h (List.not_mem_nil _)
  | cons a rest ih =>
    intro h
    unfold runAttempts
    rcases hA : attemptOnce net u t a with ⟨out, evs⟩
    cases out with
    | ret s => simp
    | raised e =>
      by_cases hlt : a < RETRIES
      · have hmem : RETRIES ∈ rest := by
          rcases List.mem_cons.mp h with h1 | h1
          · exact absurd h1.symm (Nat.ne_of_lt hlt)
          · exact h1
        simpa [hlt] using ih hmem
      · simp [hlt]

theorem find?_keyed_map_of_mem (g : Nat → StatusVal) :
    ∀ (l : List Nat) (i : Nat), i ∈ l →
      (l.map (fun j => (j, g j))).find? (fun p => p.1 == i) = some (i, g i) := by
  intro l
  induction l with
  | nil => intro i h; exact absurd h (List.not_mem_nil _)
  | cons a rest ih =>
    intro i h
    by_cases hai : a = i
    · subst hai; simp [List.find?_cons]
    · have hmem : i ∈ rest := by
        rcases List.mem_cons.mp h with h1 | h1
        · exact absurd h1.symm hai
        · exact h1
      simpa [List.find?_cons, hai] using ih i hmem

theorem mapGet_dispatch_of_mem (exec : Nat → Except String StatusVal)
    (order : List Nat) (i : Nat) (h : i ∈ order) :
    mapGet (dispatch exec order) i = taskStatus exec i := by
  unfold mapGet dispatch
  rw [← List.map_reverse, find?_keyed_map_of_mem _ _ _ (List.mem_reverse.mpr h)]

theorem mapGet_of_not_key (results : List (Nat × StatusVal)) (i : Nat)
    (h : ∀ p ∈ results, p.1 ≠ i) : mapGet results i = .str "error: missing" := by
  unfold mapGet
  have : results.reverse.find? (fun p => p.1 == i) = none := by
    rw [List.find?_eq_none]
    intro p hp
    simpa using h p (List.mem_reverse.mp hp)
  rw [this]

theorem attemptOnce_events (net : Net) (u : String) (t : Int) (a : Nat) :
    (attemptOnce net u t a).2 = [.headCall u t a] ∨
      (attemptOnce net u t a).2 = [.headCall u t a, .getCall u t a] := by
  unfold attemptOnce
  rcases net.head u a with s | e
  · by_cases hc : s = 405 ∨ (400 ≤ s ∧ s ≠ 404)
    · rcases net.get u a with s2 | e2 <;> simp [hc]
    · simp [hc]
  · simp

theorem attemptOnce_eventUrl (net : Net) (u : String) (t : Int) (a : Nat)
    (ev : Event) (hev : ev ∈ (attemptOnce net u t a).2) (v : String)
    (hv : eventUrl ev = some v) : v = u := by
  rcases attemptOnce_events net u t a with h | h <;> rw [h] at hev <;> simp at hev
  · subst hev; simp [eventUrl] at hv; exact hv.symm
  · rcases hev with h1 | h1 <;> subst h1 <;> simp [eventUrl] at hv <;> exact hv.symm

theorem runAttempts_eventUrl (net : Net) (u : String) (t : Int) :
    ∀ (l : List Nat) (ev : Event), ev ∈ (runAttempts net u t l).2 →
      ∀ v : String, eventUrl ev = some v → v = u := by
  intro l
  induction l with
  | nil => intro ev hev; simp [runAttempts] at hev
  | cons a rest ih =>
    intro ev hev v hv
    unfold runAttempts at hev
    rcases hA : attemptOnce net u t a with ⟨out, evs⟩
    rw [hA] at hev
    have hevs : ∀ e ∈ evs, ∀ w, eventUrl e = some w → w = u := by
      intro e he w hw
      exact attemptOnce_eventUrl net u t a e (by rw [hA]; exact he) w hw
    cases out with
    | ret s => exact hevs ev hev v hv
    | raised e =>
      dsimp only at hev
      by_cases hlt : a < RETRIES
      · rw [if_pos hlt] at hev
        simp only [List.mem_append, List.mem_cons] at hev
        rcases hev with h | h | h
        · exact hevs ev h v hv
        · subst h; simp [eventUrl] at hv
        · exact ih ev h v hv
      · rw [if_neg hlt] at hev
        exact hevs ev hev v hv

/-! ## Claims -/

/-- C1: on any probe attempt whose calls raise no transport exception,
a fallback GET is issued iff the HEAD status is 405 or (>= 400 and
!= 404), in which case the GET status is returned, else the HEAD status
is returned; either way the attempt returns immediately (the trace holds
exactly that attempt's calls, no sleeps, no retries, even for a status
>= 400). In particular a HEAD 404 returns `StatusCode 404` with no GET,
and HEAD 405 followed by GET 404 returns `StatusCode 404`, HEAD being
invoked before GET. -/
theorem check_one_head_get_fallback :
    (∀ (net : Net) (u : String) (t : Int) (a : Nat) (rest : List Nat) (s : Int),
      net.head u a = .ok s →
      (¬(s = 405 ∨ (400 ≤ s ∧ s ≠ 404)) →
        runAttempts net u t (a :: rest) = (some (.StatusCode s), [.headCall u t a])) ∧
      ((s = 405 ∨ (400 ≤ s ∧ s ≠ 404)) → ∀ s2 : Int, net.get u a = .ok s2 →
        runAttempts net u t (a :: rest) =
          (some (.StatusCode s2), [.headCall u t a, .getCall u t a]))) ∧
    check_one (.str "http://a.test/x.png") DEFAULT_TIMEOUT head404Net =
      (some (.StatusCode 404), [.headCall "http://a.test/x.png" DEFAULT_TIMEOUT 0]) ∧
    check_one (.str "http://a.test/x.png") DEFAULT_TIMEOUT head405get404Net =
      (some (.StatusCode 404),
        [.headCall "http://a.test/x.png" DEFAULT_TIMEOUT 0,
         .getCall "http://a.test/x.png" DEFAULT_TIMEOUT 0]) := by
  refine ⟨fun net u t a rest s hhead => ⟨fun hcond => ?_, fun hcond s2 hget => ?_⟩,
    by decide, by decide⟩
  · unfold runAttempts attemptOnce
    rw [hhead]
    dsimp only
    rw [if_neg hcond]
  · unfold runAttempts attemptOnce
    rw [hhead]
    dsimp only
    rw [if_pos hcond, hget]

/-- C1 witness: the general part applied to the two concrete servers at
attempt 0 of the retry loop. -/
theorem check_one_head_get_fallback_witness :
    runAttempts head404Net "u" 10 [0, 1, 2] =
      (some (.StatusCode 404), [.headCall "u" 10 0]) ∧
    runAttempts head405get404Net "u" 10 [0, 1, 2] =
      (some (.StatusCode 404), [.headCall "u" 10 0, .getCall "u" 10 0]) :=
  ⟨(check_one_head_get_fallback.1 head404Net "u" 10 0 [1, 2] 404 rfl).1 (by decide),
   (check_one_head_get_fallback.1 head405get404Net "u" 10 0 [1, 2] 405 rfl).2
     (by decide) 404 rfl⟩

/-- C3: a probe of a non-blank URL whose attempts all raise a transport
exception runs exactly 3 attempts (RETRIES + 1), sleeping
`0.5 * (attempt + 1)` seconds after each failed non-final attempt
(0.5s, then 1.0s), and returns the error sentinel carrying the last
exception's type name. -/
theorem check_one_retry_exhaustion :
    (∀ (net : Net) (u : String) (t : Int) (f : Nat → String),
      pyStrip u ≠ "" →
      ((∀ a, (attemptOnce net (pyStrip u) t a).1 = .raised (f a)) →
        check_one (.str u) t net =
          (some (.ErrorSentinel (f 2)),
            (attemptOnce net (pyStrip u) t 0).2 ++
              Event.sleep 0 :: ((attemptOnce net (pyStrip u) t 1).2 ++
                Event.sleep 1 :: (attemptOnce net (pyStrip u) t 2).2))) ∧
      ((∀ a, net.head (pyStrip u) a = .exn (f a)) →
        check_one (.str u) t net =
          (some (.ErrorSentinel (f 2)),
            [.headCall (pyStrip u) t 0, .sleep 0, .headCall (pyStrip u) t 1, .sleep 1,
             .headCall (pyStrip u) t 2]))) ∧
    backoffSeconds 0 = 1 / 2 ∧ backoffSeconds 1 = 1 := by
  have hb0 : backoffSeconds 0 = 1 / 2 := by norm_num [backoffSeconds]
  have hb1 : backoffSeconds 1 = 1 := by norm_num [backoffSeconds]
  have main : ∀ (net : Net) (u : String) (t : Int) (f : Nat → String),
      pyStrip u ≠ "" →
      (∀ a, attemptOnce net (pyStrip u) t a =
        (.raised (f a), (attemptOnce net (pyStrip u) t a).2)) →
      check_one (.str u) t net =
        (some (.ErrorSentinel (f 2)),
          (attemptOnce net (pyStrip u) t 0).2 ++
            Event.sleep 0 :: ((attemptOnce net (pyStrip u) t 1).2 ++
              Event.sleep 1 :: (attemptOnce net (pyStrip u) t 2).2)) := by
    intro net u t f hne hall
    have hrange : List.range (RETRIES + 1) = [0, 1, 2] := rfl
    unfold check_one
    dsimp only
    rw [if_neg hne, hrange]
    unfold runAttempts
    rw [hall 0]
    dsimp only
    rw [if_pos (by decide : (0 : Nat) < RETRIES)]
    unfold runAttempts
    rw [hall 1]
    dsimp only
    rw [if_pos (by decide : (1 : Nat) < RETRIES)]
    unfold runAttempts
    rw [hall 2]
    dsimp only
    rw [if_neg (by decide : ¬ (2 : Nat) < RETRIES)]
  refine ⟨fun net u t f hne => ⟨fun hall => ?_, fun hhead => ?_⟩, hb0, hb1⟩
  · refine main net u t f hne fun a => ?_
    rcases h : attemptOnce net (pyStrip u) t a with ⟨out, evs⟩
    have := hall a
    rw [h] at this
    dsimp only at this ⊢
    rw [this]
  · have hA : ∀ a, attemptOnce net (pyStrip u) t a =
        (.raised (f a), [.headCall (pyStrip u) t a]) := by
      intro a
      unfold attemptOnce
      rw [hhead a]
    have := main net u t f hne (fun a => by rw [hA a])
    rw [this]
    simp [hA]

/-- C3 witness: the theorem applied to a server that always raises
`ConnectTimeout`, plus the two backoff durations. -/
theorem check_one_retry_exhaustion_witness :
    check_one (.str "http://x") 10 alwaysRaiseNet =
      (some (.ErrorSentinel "ConnectTimeout"),
        [.headCall (pyStrip "http://x") 10 0, .sleep 0,
         .headCall (pyStrip "http://x") 10 1, .sleep 1,
         .headCall (pyStrip "http://x") 10 2]) :=
  (check_one_retry_exhaustion.1 alwaysRaiseNet "http://x" 10
    (fun _ => "ConnectTimeout") (by decide)).2 (fun _ => rfl)

/-- C4: a non-string or blank-after-trimming input returns the empty
sentinel at once with an empty trace (no network call), and for every
other string input every network call in the trace targets the
whitespace-trimmed URL, so untrimmed URLs never reach the network. -/
theorem check_one_blank_and_trim :
    (∀ (t : Int) (net : Net), check_one .nonStr t net = (some .EmptySentinel, [])) ∧
    (∀ (u : String) (t : Int) (net : Net), pyStrip u = "" →
      check_one (.str u) t net = (some .EmptySentinel, [])) ∧
    (∀ (u : String) (t : Int) (net : Net) (ev : Event) (v : String),
      ev ∈ (check_one (.str u) t net).2 → eventUrl ev = some v → v = pyStrip u) := by
  refine ⟨fun t net => rfl, fun u t net hb => ?_, fun u t net ev v hev hv => ?_⟩
  · unfold check_one
    dsimp only
    rw [if_pos hb]
  · unfold check_one at hev
    dsimp only at hev
    by_cases hb : pyStrip u = ""
    · rw [if_pos hb] at hev
      simp at hev
    · rw [if_neg hb] at hev
      exact runAttempts_eventUrl net (pyStrip u) t _ ev hev v hv

/-- C4 witness: a whitespace-only URL yields the empty sentinel with no
network call, and the probe of a padded URL issues its HEAD request to
the trimmed URL. -/
theorem check_one_blank_and_trim_witness :
    check_one (.str "   ") 10 head404Net = (some .EmptySentinel, []) ∧
    "http://x" = pyStrip " http://x " :=
  ⟨check_one_blank_and_trim.2.1 "   " 10 head404Net (by decide),
   check_one_blank_and_trim.2.2 " http://x " 10 head404Net
     (.headCall "http://x" 10 0) "http://x" (by decide) rfl⟩

/-- C2: `is_broken` is a pure total function: on an int status `s` it
holds iff `s >= 400` (so 399 is not broken while 400 and 404 are, and
every status in [200,399] is not broken while every one in [400,599]
is), and it holds unconditionally on the empty sentinel and on every
error sentinel. -/
theorem is_broken_classification :
    (∀ s : Int, is_broken (statusLabel (.StatusCode s)) = true ↔ 400 ≤ s) ∧
    is_broken (statusLabel .EmptySentinel) = true ∧
    (∀ k : String, is_broken (statusLabel (.ErrorSentinel k)) = true) ∧
    is_broken (.int 399) = false ∧
    is_broken (.int 400) = true ∧
    is_broken (.int 404) = true := by
  refine ⟨fun s => ?_, rfl, fun k => rfl, by decide, by decide, by decide⟩
  simp [is_broken, statusLabel]

/-- C10: `check_one` is total: on every cell value, timeout and network
behaviour the retry loop exits through an explicit `return`, so the
probe always yields a well-formed outcome and Python's implicit
fall-off-the-end `None` return is unreachable. -/
theorem check_one_total (c : Cell) (t : Int) (net : Net) :
    ((check_one c t net).1).isSome = true ∧
    pyResult (check_one c t net).1 ≠ .pyNone := by
  have h : ((check_one c t net).1).isSome = true := by
    cases c with
    | nonStr => rfl
    | str s =>
      unfold check_one
      by_cases hb : pyStrip s = ""
      · simp [hb]
      · simpa [hb] using
          runAttempts_fst_isSome net (pyStrip s) t (List.range (RETRIES + 1)) (by decide)
  refine ⟨h, ?_⟩
  rcases ho : (check_one c t net).1 with _ | o
  · rw [ho] at h; simp at h
  · cases o <;> simp [pyResult, statusLabel]

/-- C5: after a completed dispatch (futures completing in any order
that enumerates each submitted index exactly once), the result set has
exactly one entry per submitted index — its keys are a permutation of
`0..n-1`, its size equals the task count, and looking up any submitted
index yields that task's status; and the collation lookup substitutes
the "error: missing" sentinel for any index absent from the results
instead of crashing. -/
theorem dispatch_resultset_coverage :
    (∀ (exec : Nat → Except String StatusVal) (n : Nat) (order : List Nat),
      order.Perm (List.range n) →
      (dispatch exec order).length = n ∧
      ((dispatch exec order).map Prod.fst).Perm (List.range n) ∧
      (∀ i, i < n → mapGet (dispatch exec order) i = taskStatus exec i)) ∧
    (∀ (results : List (Nat × StatusVal)) (i : Nat),
      (∀ p ∈ results, p.1 ≠ i) → mapGet results i = .str "error: missing") := by
  refine ⟨fun exec n order hperm => ⟨?_, ?_, fun i hi => ?_⟩, mapGet_of_not_key⟩
  · rw [dispatch, List.length_map, hperm.length_eq, List.length_range]
  · have : (dispatch exec order).map Prod.fst = order := by
      rw [dispatch, List.map_map]
      exact List.map_id order
    rw [this]
    exact hperm
  · exact mapGet_dispatch_of_mem exec order i
      (hperm.mem_iff.mpr (List.mem_range.mpr hi))

/-- C5 witness: the theorem applied to the three-task example with an
out-of-submission completion order, plus the missing-index fallback at
a concrete absent index. -/
theorem dispatch_resultset_coverage_witness :
    (dispatch exampleExec [2, 0, 1]).length = 3 ∧
    mapGet (dispatch exampleExec [2, 0, 1]) 0 = taskStatus exampleExec 0 ∧
    mapGet [(0, StatusVal.int 200)] 7 = .str "error: missing" :=
  ⟨(dispatch_resultset_coverage.1 exampleExec 3 [2, 0, 1] (by decide)).1,
   (dispatch_resultset_coverage.1 exampleExec 3 [2, 0, 1] (by decide)).2.2 0 (by decide),
   dispatch_resultset_coverage.2 [(0, StatusVal.int 200)] 7 (by decide)⟩

/-- C6: if one task's execution raises an unexpected fault of kind `k`,
the dispatcher's catch records the string "error: " ++ k as that task's
status, and every other submitted task still appears in the result set
with its own status — one failing task never affects its siblings. -/
theorem dispatch_fault_isolation
    (exec : Nat → Except String StatusVal) (n : Nat) (order : List Nat)
    (i : Nat) (k : String) (hperm : order.Perm (List.range n)) (hi : i < n)
    (hfault : exec i = .error k) :
    mapGet (dispatch exec order) i = .str ("error: " ++ k) ∧
    ∀ j, j < n → mapGet (dispatch exec order) j = taskStatus exec j := by
  have cover : ∀ j, j < n → mapGet (dispatch exec order) j = taskStatus exec j :=
    fun j hj => mapGet_dispatch_of_mem exec order j
      (hperm.mem_iff.mpr (List.mem_range.mpr hj))
  refine ⟨?_, cover⟩
  rw [cover i hi, taskStatus, hfault]

/-- C6 witness: in the three-task example, task 1 raises `ValueError`
and is recorded as "error: ValueError" while task 0 still reports its
own status 200. -/
theorem dispatch_fault_isolation_witness :
    mapGet (dispatch exampleExec [2, 0, 1]) 1 = .str ("error: " ++ "ValueError") ∧
    mapGet (dispatch exampleExec [2, 0, 1]) 0 = taskStatus exampleExec 0 :=
  ⟨(dispatch_fault_isolation exampleExec 3 [2, 0, 1] 1 "ValueError"
      (by decide) (by decide) rfl).1,
   (dispatch_fault_isolation exampleExec 3 [2, 0, 1] 1 "ValueError"
      (by decide) (by decide) rfl).2 0 (by decide)⟩

/-- C9: dispatch is deterministic in the completion order: for a fixed
task-outcome function, any two completion orders of the same `n`
submitted tasks produce result sets with identical lookups at every
index. -/
theorem dispatch_order_determinism
    (exec : Nat → Except String StatusVal) (n : Nat)
    (order1 order2 : List Nat) (h1 : order1.Perm (List.range n))
    (h2 : order2.Perm (List.range n)) (i : Nat) :
    mapGet (dispatch exec order1) i = mapGet (dispatch exec order2) i := by
  by_cases hi : i < n
  · rw [mapGet_dispatch_of_mem exec order1 i (h1.mem_iff.mpr (List.mem_range.mpr hi)),
      mapGet_dispatch_of_mem exec order2 i (h2.mem_iff.mpr (List.mem_range.mpr hi))]
  · have key : ∀ (order : List Nat), order.Perm (List.range n) →
        mapGet (dispatch exec order) i = .str "error: missing" := by
      intro order hperm
      refine mapGet_of_not_key _ i fun p hp => ?_
      rcases List.mem_map.mp hp with ⟨j, hj, hpj⟩
      have hjn : j < n := List.mem_range.mp (hperm.mem_iff.mp hj)
      intro hcontra
      exact hi (hcontra ▸ hpj ▸ hjn)
    rw [key order1 h1, key order2 h2]

/-- C9 witness: the theorem applied to an always-200 mocked task set
with two different completion orders. -/
theorem dispatch_order_determinism_witness :
    mapGet (dispatch (fun _ => .ok (.int 200)) [2, 1, 0]) 1 =
      mapGet (dispatch (fun _ => .ok (.int 200)) [0, 1, 2]) 1 :=
  dispatch_order_determinism (fun _ => .ok (.int 200)) 3 [2, 1, 0] [0, 1, 2]
    (by decide) (by decide) 1

/-- C7: the emitted rows are exactly the broken-status subsequence of
the input rows in original order, each row unchanged except for the
appended status label; and on the end-to-end scenario (rows with mocked
statuses 200, 404 and a blank URL) the output holds exactly rows 1 and 2
labelled 404 and "empty", with console lines "Checked 3 rows." and
"Broken rows: 2". -/
theorem collate_broken_filter :
    (∀ (rows : List String) (statusOf : Nat → StatusVal),
      ((collate rows statusOf).map Prod.fst).Sublist rows ∧
      (collate rows statusOf).Sublist
        (rows.enum.map (fun p => (p.2, statusOf p.1))) ∧
      (∀ p ∈ collate rows statusOf, is_broken p.2 = true) ∧
      (∀ i, i < rows.length → is_broken (statusOf i) = true →
        (rows.getD i "", statusOf i) ∈ collate rows statusOf)) ∧
    mainModel exampleFrame "url" "out.csv" 10 exampleNets [2, 0, 1] (fun _ => none) =
      { exit := none
        netCalls := [.headCall "http://a.test/ok.png" 10 0,
                     .headCall "http://a.test/missing.png" 10 0]
        output := some [("r1", .int 404), ("r2", .str "empty")]
        console := ["Checked 3 rows.", "Broken rows: 2", "Wrote: out.csv"] } := by
  refine ⟨fun rows statusOf => ⟨?_, List.filter_sublist _, fun p hp => ?_, fun i hi hb => ?_⟩,
    by decide⟩
  · have h1 : (collate rows statusOf).Sublist
        (rows.enum.map (fun p => (p.2, statusOf p.1))) := List.filter_sublist _
    have h2 := h1.map Prod.fst
    rw [List.map_map] at h2
    have h3 : (rows.enum.map (Prod.fst ∘ fun p => (p.2, statusOf p.1))) = rows := by
      have : (Prod.fst ∘ fun p : Nat × String => (p.2, statusOf p.1)) = Prod.snd := rfl
      rw [this, List.enum_map_snd]
    rwa [h3] at h2
  · exact (List.mem_filter.mp hp).2
  · have hmem : (i, rows.getD i "") ∈ rows.enum := by
      rw [List.mk_mem_enum_iff_getElem?, List.getElem?_eq_getElem hi,
        List.getD_eq_getElem?_getD, List.getElem?_eq_getElem hi]
      rfl
    refine List.mem_filter.mpr ⟨?_, hb⟩
    exact List.mem_map_of_mem (fun p => (p.2, statusOf p.1)) hmem

/-- C7 witness: the general part applied to a one-row
input whose status is 404: the row is kept and labelled. -/
theorem collate_broken_filter_witness :
    is_broken (StatusVal.int 404) = true ∧
    ("a", StatusVal.int 404) ∈ collate ["a"] (fun _ => StatusVal.int 404) :=
  ⟨(collate_broken_filter.1 ["a"] (fun _ => .int 404)).2.2.1 ("a", .int 404) (by decide),
   (collate_broken_filter.1 ["a"] (fun _ => .int 404)).2.2.2 0 (by decide) (by decide)⟩

/-- C8: when the configured column is absent from the input frame, the
run aborts with the `SystemExit` message naming the missing column and
listing the available columns, makes no network call, writes no output
file and prints nothing. -/
theorem mainModel_missing_column
    (df : Frame) (column outPath : String) (t : Int) (nets : Nat → Net)
    (order : List Nat) (faults : Nat → Option String)
    (h : column ∉ df.columns) :
    mainModel df column outPath t nets order faults =
      { exit := some (columnMissingMsg column df.columns)
        netCalls := []
        output := none
        console := [] } := by
  unfold mainModel
  rw [if_neg h]

/-- C8 witness: asking the example frame (whose only column is `url`)
for column `nope` aborts with no effects. -/
theorem mainModel_missing_column_witness :
    mainModel exampleFrame "nope" "out.csv" 10 exampleNets [0, 1, 2] (fun _ => none) =
      { exit := some (columnMissingMsg "nope" exampleFrame.columns)
        netCalls := []
        output := none
        console := [] } :=
  mainModel_missing_column exampleFrame "nope" "out.csv" 10 exampleNets [0, 1, 2]
    (fun _ => none) (by decide)

end ImageURLChecker
